import Mathlib

/-
Verification of the kueue Deployment admission webhook
(pkg/controller/jobs/deployment/deployment_webhook.go).

The Deployment object is shallowly embedded: label maps become association
lists (Go `map[string]string`), the nullable template label map becomes an
`Option`, and the ready-replica count becomes a `Nat`.  Helpers from other
packages (jobframework, apimachinery validation) are modelled from the
specification, as noted on each definition.
-/

set_option autoImplicit false

namespace KueueDeployment

/-- A Go `map[string]string` on the keys the webhook reads and writes,
embedded as an association list. -/
abbrev Labels := List (String × String)

/-- Lookup of a key in a label map (`m[k]` with presence flag). -/
def labelGet : Labels → String → Option String
  | [], _ => none
  | (k', v) :: rest, k => if k' = k then some v else labelGet rest k

/-- Insertion/overwrite of a key in a label map (`m[k] = v`). -/
def labelSet : Labels → String → String → Labels
  | [], k, v => [(k, v)]
  | (k', v') :: rest, k, v =>
    if k' = k then (k, v) :: rest else (k', v') :: labelSet rest k v

namespace constants

/-- The well-known queue-name label key (`constants.QueueLabel`). -/
def QueueLabel : String := "kueue.x-k8s.io/queue-name"

/-- Modelled from the spec: the name of the configured default local queue
assigned by the defaulting stage (the jobframework constant is outside the
code under study). -/
def DefaultLocalQueueName : String := "default"

end constants

/-- A field-scoped validation error (`field.Error`: path plus message). -/
structure FieldErr where
  path : String
  msg : String
deriving DecidableEq

/-- The field path `metadata.labels[kueue.x-k8s.io/queue-name]`
(`queueNameLabelPath` in the source). -/
def queueNameLabelPath : String := "metadata.labels[kueue.x-k8s.io/queue-name]"

/-- The Deployment view the webhook reads and mutates: top-level labels,
the nullable pod-template label map (`Spec.Template.Labels`), the
ready-replica count (`Status.ReadyReplicas`), plus identity (`name`) and a
non-label spec field (`replicas`) to express the frame property. -/
structure Deployment where
  name : String
  labels : Labels
  replicas : Nat
  templateLabels : Option Labels
  readyReplicas : Nat
deriving DecidableEq

namespace jobframework

/-- Modelled from the spec: the queue-name extractor
`QueueNameForObject(workload) -> string` of the jobframework package reads
the well-known queue-name label; an absent label reads as `""`. -/
def QueueNameForObject (obj : Deployment) : String :=
  (labelGet obj.labels constants.QueueLabel).getD ""

/-- Modelled from the spec: the jobframework defaulting helper
`ApplyDefaultLocalQueue`: if the Workload has no queue-name label and the
configured default local queue is known to exist (an external predicate,
here a boolean oracle), assign that default queue name to the label. -/
def ApplyDefaultLocalQueue (obj : Deployment) (defaultLocalQueueExist : Bool) : Deployment :=
  if QueueNameForObject obj = "" ∧ defaultLocalQueueExist then
    { obj with labels := labelSet obj.labels constants.QueueLabel constants.DefaultLocalQueueName }
  else obj

/-- Modelled from the spec: the opaque format validator
`ValidateQueueName(workload) -> errorList` of the jobframework package,
parametrised by the opaque naming policy `formatOk`; a compliant queue
name (including an absent or empty one) produces no errors, a violating
one produces a field error keyed to the label path. -/
def ValidateQueueName (formatOk : String → Bool) (obj : Deployment) : List FieldErr :=
  let q := QueueNameForObject obj
  if q = "" ∨ formatOk q then [] else [⟨queueNameLabelPath, "invalid queue name"⟩]

end jobframework

namespace apivalidation

/-- Modelled from the spec: the generic immutable-field checker
`CheckImmutable(oldValue, newValue, fieldPath)` of the apimachinery
validation package, producing a field error iff the two values differ. -/
def ValidateImmutableField (oldVal newVal : String) (fldPath : String) : List FieldErr :=
  if oldVal = newVal then [] else [⟨fldPath, "field is immutable"⟩]

end apivalidation

/-- `ErrorList.ToAggregate`: `nil` for an empty error list, otherwise one
combined error exposing every violation. -/
def toAggregate (l : List FieldErr) : Option (List FieldErr) :=
  if l = [] then none else some l

/-- Admission warnings (`admission.Warnings`, a nullable string slice). -/
abbrev Warnings := Option (List String)

/-- `Webhook.Default`: apply the default local queue, then, when the
(possibly just-assigned) queue name is non-empty, propagate it into the
pod-template label map, creating that map when it is `nil`.  The boolean
oracle stands for `wh.queues.DefaultLocalQueueExist`.  Returns the mutated
object together with the function's error result. -/
def Default (defaultLocalQueueExist : Bool) (obj : Deployment) : Deployment × Option String :=
  let deployment := jobframework.ApplyDefaultLocalQueue obj defaultLocalQueueExist
  let queueName := jobframework.QueueNameForObject deployment
  let deployment :=
    if queueName ≠ "" then
      { deployment with
        templateLabels :=
          some (labelSet (deployment.templateLabels.getD []) constants.QueueLabel queueName) }
    else deployment
  (deployment, none)

/-- `Webhook.ValidateCreate`: run the queue-name format check and aggregate. -/
def ValidateCreate (formatOk : String → Bool) (obj : Deployment) :
    Warnings × Option (List FieldErr) :=
  (none, toAggregate (jobframework.ValidateQueueName formatOk obj))

/-- The error list built by `Webhook.ValidateUpdate` before aggregation:
format errors on the new object, then — only when the old Deployment has
ready replicas or the new queue name is empty — the immutable-field errors
on the (old, new) queue-name pair. -/
def validateUpdateErrs (formatOk : String → Bool) (oldObj newObj : Deployment) : List FieldErr :=
  let oldQueueName := jobframework.QueueNameForObject oldObj
  let newQueueName := jobframework.QueueNameForObject newObj
  let allErrs := jobframework.ValidateQueueName formatOk newObj
  allErrs ++
    (if oldObj.readyReplicas > 0 ∨ newQueueName = "" then
      apivalidation.ValidateImmutableField oldQueueName newQueueName queueNameLabelPath
    else [])

/-- `Webhook.ValidateUpdate`: aggregate the update error list; the
`warnings` named return value is never assigned, hence `nil`. -/
def ValidateUpdate (formatOk : String → Bool) (oldObj newObj : Deployment) :
    Warnings × Option (List FieldErr) :=
  (none, toAggregate (validateUpdateErrs formatOk oldObj newObj))

/-- `Webhook.ValidateDelete`: always `(nil, nil)`. -/
def ValidateDelete (_obj : Deployment) : Warnings × Option (List FieldErr) :=
  (none, none)

/-! ### Concrete objects used to exercise the theorems -/

/-- A format policy accepting every queue name. -/
def fmtAll : String → Bool := fun _ => true

/-- A format policy rejecting every queue name. -/
def fmtNone : String → Bool := fun _ => false

/-- A Deployment bound to queue `team-a` with 2 ready replicas. -/
def oldReadyA : Deployment := ⟨"d", [(constants.QueueLabel, "team-a")], 1, none, 2⟩

/-- A Deployment bound to queue `team-a` with 0 ready replicas. -/
def oldUnreadyA : Deployment := ⟨"d", [(constants.QueueLabel, "team-a")], 1, none, 0⟩

/-- A Deployment bound to queue `team-b`. -/
def newTeamB : Deployment := ⟨"d", [(constants.QueueLabel, "team-b")], 1, none, 0⟩

/-- A Deployment carrying no queue-name label. -/
def newNoQueue : Deployment := ⟨"d", [], 1, none, 0⟩

/-- A Deployment with no queue-name label and 3 ready replicas. -/
def oldNoQueueReady : Deployment := ⟨"d", [], 1, none, 3⟩

/-! ### Label-map lemmas -/

theorem labelGet_labelSet_self (l : Labels) (k v : String) :
    labelGet (labelSet l k v) k = some v := by
  induction l with
  | nil => simp [labelSet, labelGet]
  | cons hd tl ih =>
    obtain ⟨k', v'⟩ := hd
    by_cases h : k' = k
    · simp [labelSet, labelGet, h]
    · simp [labelSet, labelGet, h, ih]

theorem labelSet_idem (l : Labels) (k v : String) :
    labelSet (labelSet l k v) k v = labelSet l k v := by
  induction l with
  | nil => simp [labelSet]
  | cons hd tl ih =>
    obtain ⟨k', v'⟩ := hd
    by_cases h : k' = k
    · simp [labelSet, h]
    · simp [labelSet, h, ih]

theorem toAggregate_eq_none (l : List FieldErr) : toAggregate l = none ↔ l = [] := by
  by_cases h : l = [] <;> simp [toAggregate, h]

theorem defaultName_ne_empty : constants.DefaultLocalQueueName ≠ "" := by
  simp [constants.DefaultLocalQueueName]

/-! ### Validation theorems -/

/-- Claim C2: for every update where the old Workload has ready-replica
count greater than zero and the new queue name differs from the old queue
name, `ValidateUpdate` returns a non-nil error, regardless of the format
policy. -/
theorem validateUpdate_freeze_when_ready (formatOk : String → Bool)
    (oldObj newObj : Deployment) (hready : oldObj.readyReplicas > 0)
    (hne : jobframework.QueueNameForObject newObj ≠ jobframework.QueueNameForObject oldObj) :
    (ValidateUpdate formatOk oldObj newObj).2 ≠ none := by
  have hq : jobframework.QueueNameForObject oldObj ≠ jobframework.QueueNameForObject newObj :=
    fun h => hne h.symm
  simp [ValidateUpdate, validateUpdateErrs, toAggregate,
    apivalidation.ValidateImmutableField, hready, hq]

/-- Witness for `validateUpdate_freeze_when_ready` at a concrete update. -/
theorem validateUpdate_freeze_when_ready_witness :
    (ValidateUpdate fmtAll oldReadyA newTeamB).2 ≠ none :=
  validateUpdate_freeze_when_ready fmtAll oldReadyA newTeamB (by decide) (by decide)

/-- Claim C3: for every update where the new queue name is empty and the
old queue name is non-empty, `ValidateUpdate` returns a non-nil error,
regardless of the old ready-replica count. -/
theorem validateUpdate_freeze_on_clear (formatOk : String → Bool)
    (oldObj newObj : Deployment) (hnew : jobframework.QueueNameForObject newObj = "")
    (hold : jobframework.QueueNameForObject oldObj ≠ "") :
    (ValidateUpdate formatOk oldObj newObj).2 ≠ none := by
  simp [ValidateUpdate, validateUpdateErrs, toAggregate,
    apivalidation.ValidateImmutableField, hnew, hold]

/-- Witness for `validateUpdate_freeze_on_clear` on an unready Workload. -/
theorem validateUpdate_freeze_on_clear_witness :
    (ValidateUpdate fmtAll oldUnreadyA newNoQueue).2 ≠ none :=
  validateUpdate_freeze_on_clear fmtAll oldUnreadyA newNoQueue (by decide) (by decide)

/-- Claim C4: for every update where the old Workload has zero ready
replicas, the new queue name is non-empty and accepted by the format
policy, and the old and new queue names differ, `ValidateUpdate` returns a
nil error. -/
theorem validateUpdate_free_when_unready (formatOk : String → Bool)
    (oldObj newObj : Deployment) (hready : oldObj.readyReplicas = 0)
    (hnew : jobframework.QueueNameForObject newObj ≠ "")
    (hfmt : formatOk (jobframework.QueueNameForObject newObj) = true)
    (_hdiff : jobframework.QueueNameForObject oldObj ≠ jobframework.QueueNameForObject newObj) :
    (ValidateUpdate formatOk oldObj newObj).2 = none := by
  simp [ValidateUpdate, validateUpdateErrs, toAggregate,
    jobframework.ValidateQueueName, hready, hnew, hfmt]

/-- Witness for `validateUpdate_free_when_unready`: reassigning an unready
Workload from `team-a` to `team-b` is accepted. -/
theorem validateUpdate_free_when_unready_witness :
    (ValidateUpdate fmtAll oldUnreadyA newTeamB).2 = none :=
  validateUpdate_free_when_unready fmtAll oldUnreadyA newTeamB
    (by decide) (by decide) (by decide) (by decide)

/-- Claim C10: for every update where old and new queue names are both
empty and the format check on the new object yields no errors,
`ValidateUpdate` returns a nil error regardless of the old ready-replica
count. -/
theorem validateUpdate_unbound_ok (formatOk : String → Bool)
    (oldObj newObj : Deployment) (hold : jobframework.QueueNameForObject oldObj = "")
    (hnew : jobframework.QueueNameForObject newObj = "")
    (hfmt : jobframework.ValidateQueueName formatOk newObj = []) :
    (ValidateUpdate formatOk oldObj newObj).2 = none := by
  simp [ValidateUpdate, validateUpdateErrs, toAggregate,
    apivalidation.ValidateImmutableField, hold, hnew, hfmt]

/-- Witness for `validateUpdate_unbound_ok`: an unbound Workload with
ready replicas stays admissible, even under a rejecting format policy. -/
theorem validateUpdate_unbound_ok_witness :
    (ValidateUpdate fmtNone oldNoQueueReady newNoQueue).2 = none :=
  validateUpdate_unbound_ok fmtNone oldNoQueueReady newNoQueue
    (by decide) (by decide) (by decide)

/-- Claim C1: the immutable-field check on the (old, new) queue-name pair
contributes to the update error list exactly when the old ready-replica
count is positive or the new queue name is empty; when neither holds, the
error list is the format errors alone, so no immutability error appears
even when the queue names differ. -/
theorem validateUpdate_guard_iff (formatOk : String → Bool) (oldObj newObj : Deployment) :
    ((oldObj.readyReplicas > 0 ∨ jobframework.QueueNameForObject newObj = "") →
        validateUpdateErrs formatOk oldObj newObj =
          jobframework.ValidateQueueName formatOk newObj ++
            apivalidation.ValidateImmutableField (jobframework.QueueNameForObject oldObj)
              (jobframework.QueueNameForObject newObj) queueNameLabelPath) ∧
      (oldObj.readyReplicas = 0 → jobframework.QueueNameForObject newObj ≠ "" →
        validateUpdateErrs formatOk oldObj newObj =
          jobframework.ValidateQueueName formatOk newObj) := by
  constructor
  · intro h
    simp [validateUpdateErrs, h]
  · intro h1 h2
    simp [validateUpdateErrs, h1, h2]

/-- Witness for `validateUpdate_guard_iff`: the guard fires for a ready
Workload and stays silent for an unready one being reassigned. -/
theorem validateUpdate_guard_iff_witness :
    (validateUpdateErrs fmtAll oldReadyA newTeamB =
        jobframework.ValidateQueueName fmtAll newTeamB ++
          apivalidation.ValidateImmutableField (jobframework.QueueNameForObject oldReadyA)
            (jobframework.QueueNameForObject newTeamB) queueNameLabelPath) ∧
      (validateUpdateErrs fmtAll oldUnreadyA newTeamB =
        jobframework.ValidateQueueName fmtAll newTeamB) :=
  ⟨(validateUpdate_guard_iff fmtAll oldReadyA newTeamB).1 (Or.inl (by decide)),
   (validateUpdate_guard_iff fmtAll oldUnreadyA newTeamB).2 (by decide) (by decide)⟩

/-- Claim C5: `ValidateCreate` returns a non-nil error exactly on a
queue-name label that violates the format policy, a nil error on a
compliant (including absent/empty) queue name, and nil warnings in every
case. -/
theorem validateCreate_format (formatOk : String → Bool) (obj : Deployment) :
    ((jobframework.QueueNameForObject obj ≠ "" ∧
        formatOk (jobframework.QueueNameForObject obj) = false) →
        (ValidateCreate formatOk obj).2 ≠ none) ∧
      ((jobframework.QueueNameForObject obj = "" ∨
        formatOk (jobframework.QueueNameForObject obj) = true) →
        (ValidateCreate formatOk obj).2 = none) ∧
      (ValidateCreate formatOk obj).1 = none := by
  refine ⟨?_, ?_, rfl⟩
  · rintro ⟨h1, h2⟩
    simp [ValidateCreate, jobframework.ValidateQueueName, toAggregate, h1, h2]
  · rintro (h | h) <;>
      simp [ValidateCreate, jobframework.ValidateQueueName, toAggregate, h]

/-- Witness for `validateCreate_format`: a rejecting policy fails a bound
Workload, accepts an unlabelled one, and warnings are always nil. -/
theorem validateCreate_format_witness :
    (ValidateCreate fmtNone newTeamB).2 ≠ none ∧
      (ValidateCreate fmtNone newNoQueue).2 = none ∧
      (ValidateCreate fmtNone newTeamB).1 = none :=
  ⟨(validateCreate_format fmtNone newTeamB).1 (by decide),
   (validateCreate_format fmtNone newNoQueue).2.1 (Or.inl (by decide)),
   (validateCreate_format fmtNone newTeamB).2.2⟩

/-! ### Defaulting theorems -/

/-- Claim C7: `Default` is total and never fails: its error result is nil
for every input Workload and oracle value. -/
theorem default_never_fails (d : Bool) (obj : Deployment) : (Default d obj).2 = none := rfl

/-- Claim C9: `Default` mutates only the label maps: name, replicas and
ready-replica count are unchanged for every input and oracle value. -/
theorem default_frame (d : Bool) (obj : Deployment) :
    (Default d obj).1.name = obj.name ∧ (Default d obj).1.replicas = obj.replicas ∧
      (Default d obj).1.readyReplicas = obj.readyReplicas := by
  simp only [Default, jobframework.ApplyDefaultLocalQueue]
  split <;> split <;> simp

/-- Applying `Default` twice yields the same Deployment as applying it
once: the second run finds the queue name already assigned (or still
absent with nothing to assign) and rewrites the template label to the
value it already has. -/
theorem default_idem_full (d : Bool) (obj : Deployment) :
    (Default d (Default d obj).1).1 = (Default d obj).1 := by
  obtain ⟨nm, ls, rp, tl, rr⟩ := obj
  by_cases hq : (labelGet ls constants.QueueLabel).getD "" = "" <;>
    cases d <;>
      simp [Default, jobframework.ApplyDefaultLocalQueue, jobframework.QueueNameForObject,
        hq, labelGet_labelSet_self, labelSet_idem, defaultName_ne_empty]

/-- Claim C6: `Default` is idempotent: for every Workload and oracle
value, applying it twice yields the same top-level and template label
state as applying it once. -/
theorem default_idempotent (d : Bool) (obj : Deployment) :
    (Default d (Default d obj).1).1.labels = (Default d obj).1.labels ∧
      (Default d (Default d obj).1).1.templateLabels = (Default d obj).1.templateLabels := by
  rw [default_idem_full]
  exact ⟨rfl, rfl⟩

/-- Claim C8: after `Default`, a non-empty (possibly just-assigned) queue
name is mirrored in the template label map under the queue-name key (the
map existing even when it was absent before); an empty queue name leaves
the template labels untouched. -/
theorem default_propagates (d : Bool) (obj : Deployment) :
    (jobframework.QueueNameForObject (Default d obj).1 ≠ "" →
        ∃ l, (Default d obj).1.templateLabels = some l ∧
          labelGet l constants.QueueLabel =
            some (jobframework.QueueNameForObject (Default d obj).1)) ∧
      (jobframework.QueueNameForObject (Default d obj).1 = "" →
        (Default d obj).1.templateLabels = obj.templateLabels) := by
  obtain ⟨nm, ls, rp, tl, rr⟩ := obj
  by_cases hq : (labelGet ls constants.QueueLabel).getD "" = "" <;>
    cases d <;>
      simp [Default, jobframework.ApplyDefaultLocalQueue, jobframework.QueueNameForObject,
        hq, labelGet_labelSet_self, defaultName_ne_empty]

/-- Witness for `default_propagates`: with the oracle true, an unlabelled
Workload gains the default queue name in a freshly created template label
map; with the oracle false, its template labels stay untouched. -/
theorem default_propagates_witness :
    (∃ l, (Default true newNoQueue).1.templateLabels = some l ∧
        labelGet l constants.QueueLabel =
          some (jobframework.QueueNameForObject (Default true newNoQueue).1)) ∧
      (Default false newNoQueue).1.templateLabels = newNoQueue.templateLabels :=
  ⟨(default_propagates true newNoQueue).1 (by decide),
   (default_propagates false newNoQueue).2 (by decide)⟩

end KueueDeployment
